import Mathlib

/-!
Shallow embedding of the Adaptive Face-Region Detection Engine of
src/app/hooks/useFaceApiDetection.ts (the hook useAdvancedFaceDetection).

Conventions of the embedding:
* Pixel data (a Uint8ClampedArray in the source) is a total function
  from byte index to byte value; the source only reads indices that the
  bounds guards keep inside the frame, so totality is harmless.
* JavaScript numbers are embedded as rationals; the decimal literals of
  the source (0.3, 0.8, 0.4, ...) are the corresponding exact rationals.
  The scale set [1.0, 0.8, 1.2] and the products 120*scale and 40*scale
  floor to 120/96/144 and 40/32/48 in IEEE double arithmetic exactly as
  the rational floors do, so Rat.floor is a faithful model here.
* The overlap test of the source compares Math.sqrt(dx^2+dy^2) with the
  window size; since both sides are nonnegative this is equivalent to
  comparing the squares, which is how the embedding states it (keeping
  everything decidable).
-/

namespace Photobooth

/-- The FaceDetection record of the source (lines 4..14); the optional
neural-only fields landmarks/expressions are absent on the heuristic
path modelled here. -/
structure FaceDetection where
  x : ℕ
  y : ℕ
  width : ℕ
  height : ℕ
  confidence : ℚ
  emotion : String
  emotionConfidence : ℚ
deriving DecidableEq

/-- isAdvancedSkinTone (source lines 311..323): a pixel is skin when at
least two of the three heuristic rules agree. -/
def isAdvancedSkinTone (r g b : ℕ) : Bool :=
  let m1 : Bool := decide (95 < r ∧ 40 < g ∧ 20 < b ∧ g < r ∧ b < r ∧ 15 < ((r : ℤ) - g).natAbs)
  let m2 : Bool := decide (80 < r ∧ 50 < g ∧ 30 < b ∧ g ≤ r ∧ b ≤ g)
  let m3 : Bool := decide (60 < r ∧ 40 < g ∧ 25 < b ∧ 15 < (r : ℤ) - min g b)
  2 ≤ (if m1 then 1 else 0) + (if m2 then 1 else 0) + (if m3 then 1 else 0)

/-- Multiples of 2 below n: the sampled offsets of one axis (the
source loops dy/dx from 0 by 2 while below size). -/
def evens (n : ℕ) : List ℕ :=
  (List.range n).filter (fun k => k % 2 == 0)

/-- The sampled (dy, dx) offsets of one analysis window, in the loop
order of the source (dy outer, dx inner, both stride 2). -/
def sampledOffsets (size : ℕ) : List (ℕ × ℕ) :=
  (evens size).flatMap (fun dy => (evens size).map (fun dx => (dy, dx)))

/-- Accumulators of analyzeRegionAdvanced (source lines 231..235). -/
structure RegionStats where
  skinPixels : ℕ
  totalPixels : ℕ
  sumR : ℕ
  sumG : ℕ
  sumB : ℕ
  brightnessSum : ℚ
  edgePixels : ℕ
deriving DecidableEq

def initStats : RegionStats := ⟨0, 0, 0, 0, 0, 0, 0⟩

/-- The edge test of the source (lines 262..266): the R value at (x, y)
against the R value at the immediately diagonal previous pixel
(x-1, y-1), flagged when the absolute difference exceeds 30. -/
def edgeAt (data : ℕ → ℕ) (width x y : ℕ) : Bool :=
  decide (30 < ((data ((y * width + x) * 4) : ℤ) - (data (((y - 1) * width + (x - 1)) * 4))).natAbs)

/-- One iteration of the sampling loop of analyzeRegionAdvanced
(source lines 238..269): skip out-of-frame samples, otherwise
accumulate sums, skin count and the edge count. -/
def stepStats (data : ℕ → ℕ) (startX startY width height : ℕ)
    (s : RegionStats) (p : ℕ × ℕ) : RegionStats :=
  let x := startX + p.2
  let y := startY + p.1
  if width ≤ x ∨ height ≤ y then s
  else
    let idx := (y * width + x) * 4
    let r := data idx
    let g := data (idx + 1)
    let b := data (idx + 2)
    { skinPixels := s.skinPixels + (if isAdvancedSkinTone r g b then 1 else 0)
      totalPixels := s.totalPixels + 1
      sumR := s.sumR + r
      sumG := s.sumG + g
      sumB := s.sumB + b
      brightnessSum := s.brightnessSum + (((r : ℚ) + g + b) / 3)
      edgePixels := s.edgePixels +
        (if 0 < p.2 ∧ 0 < p.1 ∧ edgeAt data width x y then 1 else 0) }

/-- The sampling loop of analyzeRegionAdvanced as a fold over the
sampled offsets. -/
def regionStats (data : ℕ → ℕ) (startX startY size width height : ℕ) : RegionStats :=
  (sampledOffsets size).foldl (stepStats data startX startY width height) initStats

/-- estimateAdvancedEmotion (source lines 326..346). Arguments are the
window averages avgR avgG avgB, the mean brightness and the edge
ratio; result is the emotion label with its confidence. -/
def estimateAdvancedEmotion (r g b brightness edgeRatio : ℚ) : String × ℚ :=
  let warmth := (r - b) / 255
  let saturation := (max r (max g b) - min r (min g b)) / 255
  if 130 < brightness ∧ 1/10 < warmth then
    ("happy", 7/10 + min (1/5) warmth)
  else if brightness < 90 ∧ 3/20 < edgeRatio then
    ("focused", 3/5 + min (3/10) edgeRatio)
  else if 3/10 < saturation ∧ 100 < brightness then
    ("surprised", 3/5 + min (1/5) saturation)
  else
    ("neutral", 1/2 + min (3/10) (brightness / 200))

/-- The result record of analyzeRegionAdvanced (source lines 302..307). -/
structure RegionScore where
  isFaceCandidate : Bool
  confidence : ℚ
  emotion : String
  emotionConfidence : ℚ
deriving DecidableEq

/-- The post-loop computation of analyzeRegionAdvanced (source lines
271..307) as a function of the accumulated statistics: on a nonempty
sample derive skin/edge ratios, the candidacy predicate, the capped
confidence and the emotion estimate. -/
def scoreOfStats (s : RegionStats) : RegionScore :=
  if s.totalPixels = 0 then ⟨false, 0, "neutral", 0⟩
  else
    let avgR : ℚ := (s.sumR : ℚ) / s.totalPixels
    let avgG : ℚ := (s.sumG : ℚ) / s.totalPixels
    let avgB : ℚ := (s.sumB : ℚ) / s.totalPixels
    let brightness : ℚ := s.brightnessSum / s.totalPixels
    let skinRatio : ℚ := (s.skinPixels : ℚ) / s.totalPixels
    let edgeRatio : ℚ := (s.edgePixels : ℚ) / s.totalPixels
    let cand : Bool := decide (3/10 < skinRatio ∧ skinRatio < 4/5 ∧
      60 < brightness ∧ brightness < 200 ∧ 1/10 < edgeRatio ∧ 80 < s.skinPixels)
    let e := estimateAdvancedEmotion avgR avgG avgB brightness edgeRatio
    let conf : ℚ := min (19/20) (skinRatio * (2/5) + (min (brightness / 120) 1) * (3/10) + edgeRatio * (3/10))
    ⟨cand, conf, e.1, e.2⟩

/-- analyzeRegionAdvanced (source lines 223..308): sample the window,
then score the accumulated statistics. -/
def analyzeRegionAdvanced (data : ℕ → ℕ) (startX startY size width height : ℕ) : RegionScore :=
  scoreOfStats (regionStats data startX startY size width height)

/-! ### Integer-statistics machinery

The accumulators of the sampling loop are all sums of per-pixel
contributions, and the only rational accumulator (brightness) is a sum
of thirds. The following definitions restate the loop as a sum of
per-pixel integer contributions, grouped row by row; the lemmas below
prove the restatement equal to regionStats, which lets concrete windows
be evaluated without a single long reduction chain. -/

structure NatStats where
  skin : ℕ
  total : ℕ
  r : ℕ
  g : ℕ
  b : ℕ
  bright3 : ℕ
  edge : ℕ
deriving DecidableEq

def natZero : NatStats := ⟨0, 0, 0, 0, 0, 0, 0⟩

def natAdd (s t : NatStats) : NatStats :=
  ⟨s.skin + t.skin, s.total + t.total, s.r + t.r, s.g + t.g, s.b + t.b,
   s.bright3 + t.bright3, s.edge + t.edge⟩

def sumNat (l : List NatStats) : NatStats := l.foldr natAdd natZero

/-- Whether one sampled offset contributes to the edge count: the
sample is inside the frame, interior to the window, and the edge test
against the diagonal previous pixel fires. -/
def edgeFlag (data : ℕ → ℕ) (startX startY width height : ℕ) (p : ℕ × ℕ) : Bool :=
  decide (startX + p.2 < width) && decide (startY + p.1 < height) &&
  decide (0 < p.2) && decide (0 < p.1) &&
  edgeAt data width (startX + p.2) (startY + p.1)

/-- The integer contribution of one sampled offset: zero when the
sample is outside the frame, otherwise the per-pixel increments of the
sampling loop with the brightness contribution scaled by 3. -/
def natContrib (data : ℕ → ℕ) (startX startY width height : ℕ) (p : ℕ × ℕ) : NatStats :=
  let x := startX + p.2
  let y := startY + p.1
  if width ≤ x ∨ height ≤ y then natZero
  else
    let idx := (y * width + x) * 4
    let r := data idx
    let g := data (idx + 1)
    let b := data (idx + 2)
    ⟨if isAdvancedSkinTone r g b then 1 else 0, 1, r, g, b, r + g + b,
     if 0 < p.2 ∧ 0 < p.1 ∧ edgeAt data width x y then 1 else 0⟩

/-- The rational statistics denoted by an integer statistics record. -/
def ofNat (n : NatStats) : RegionStats :=
  ⟨n.skin, n.total, n.r, n.g, n.b, (n.bright3 : ℚ) / 3, n.edge⟩

/-- The row-grouped total contribution of a window. -/
def natRows (data : ℕ → ℕ) (startX startY size width height : ℕ) : NatStats :=
  sumNat ((evens size).map (fun dy =>
    sumNat ((evens size).map (fun dx => natContrib data startX startY width height (dy, dx)))))

/-! ### The fallback scanner (performImprovedFaceDetection) -/

/-- The acceptance gate of the scan (source line 189):
analysis.isFaceCandidate and analysis.confidence above 0.6. A window is
the triple (scaledRegionSize, y, x). -/
def acceptedWindow (data : ℕ → ℕ) (width height : ℕ) (w : ℕ × ℕ × ℕ) : Bool :=
  let a := analyzeRegionAdvanced data w.2.2 w.2.1 w.1 width height
  a.isFaceCandidate && decide ((3/5 : ℚ) < a.confidence)

/-- The overlap test of the scan (source lines 194..201): the candidate
center against the center of an already accepted face; the source
compares Math.sqrt of the squared distance with the window size, which
for nonnegative quantities is the comparison of the squares stated
here. -/
def overlapsPrev (faces : List FaceDetection) (srs y x : ℕ) : Bool :=
  faces.any (fun face =>
    let cX : ℚ := (x : ℚ) + (srs : ℚ) / 2
    let cY : ℚ := (y : ℚ) + (srs : ℚ) / 2
    let fX : ℚ := (face.x : ℚ) + (face.width : ℚ) / 2
    let fY : ℚ := (face.y : ℚ) + (face.height : ℚ) / 2
    decide ((cX - fX) ^ 2 + (cY - fY) ^ 2 < ((srs : ℕ) : ℚ) ^ 2))

/-- The detection pushed for an accepted window (source lines 204..212):
padding 20 left/up (clamped at 0 by natural subtraction, as Math.max
does), 40 extra width, 50 extra height, both clamped to the frame. -/
def mkDetection (data : ℕ → ℕ) (width height : ℕ) (w : ℕ × ℕ × ℕ) : FaceDetection :=
  let a := analyzeRegionAdvanced data w.2.2 w.2.1 w.1 width height
  ⟨w.2.2 - 20, w.2.1 - 20, min (width - w.2.2) (w.1 + 40), min (height - w.2.1) (w.1 + 50),
   a.confidence, a.emotion, a.emotionConfidence⟩

/-- The loop body of the scan at one window position, guarded by the
loop conditions faces.length < maxFaces (maxFaces = 1, source line
176) that the source re-checks before every iteration. -/
def scanStep (data : ℕ → ℕ) (width height : ℕ)
    (faces : List FaceDetection) (w : ℕ × ℕ × ℕ) : List FaceDetection :=
  if faces.length < 1 then
    if acceptedWindow data width height w then
      if overlapsPrev faces w.1 w.2.1 w.2.2 then faces
      else faces ++ [mkDetection data width height w]
    else faces
  else faces

/-- The scale set of the source (line 179). -/
def scanScales : List ℚ := [1, 4/5, 6/5]

/-- Math.floor(120 * scale) (source line 182); for the three scales of
scanScales the IEEE double product floors to the same value as the
rational product. -/
def scaledSize (scale : ℚ) : ℕ := (Rat.floor (120 * scale)).toNat

/-- Math.floor(40 * scale) (source line 183). -/
def scaledStride (scale : ℚ) : ℕ := (Rat.floor (40 * scale)).toNat

/-- The positions 0, step, 2*step, ... strictly below bound visited by
one scan loop axis. -/
def positionsBelow (bound step : ℕ) : List ℕ :=
  (List.range bound).filter (fun n => n % step == 0)

/-- All windows visited by the scan in source order: scales in the order
of scanScales, then y (outer), then x (inner), source lines 181..186. -/
def scanWindows (width height : ℕ) : List (ℕ × ℕ × ℕ) :=
  scanScales.flatMap (fun scale =>
    (positionsBelow (height - scaledSize scale) (scaledStride scale)).flatMap (fun y =>
      (positionsBelow (width - scaledSize scale) (scaledStride scale)).map (fun x =>
        (scaledSize scale, y, x))))

/-- performImprovedFaceDetection (source lines 165..220): fold the
guarded body over all windows, starting from no faces. -/
def performImprovedFaceDetection (data : ℕ → ℕ) (width height : ℕ) : List FaceDetection :=
  (scanWindows width height).foldl (scanStep data width height) []

/-! ### Throttled publish (source lines 110..115 and 152..157) -/

/-- The throttle guard: publish when now minus the last update time
exceeds 100 ms (the times are Date.now() values, and lastUpdateTime
starts at 0, source line 32). -/
def shouldPublish (lastUpdate now : ℕ) : Bool :=
  decide (100 < now - lastUpdate)

/-- Run the publish attempts at the given times through the throttle,
returning the times whose attempt overwrote the visible list. -/
def visiblePublishes (times : List ℕ) : List ℕ :=
  (times.foldl
    (fun acc now =>
      if shouldPublish acc.2 now then (acc.1 ++ [now], now) else acc)
    (([] : List ℕ), 0)).1

/-! ### Orchestrator model for startDetection (source lines 348..379)

The states a second start call interacts with: the pending animation
frame of the running loop, the video reference, the flags, and a log of
cancelled frame ids. Frame callbacks get fresh ids from nextFrameId.
startDetection never reports a failure to its caller (the catch branch
is only reachable from a throwing loadModels, which itself catches all
its errors), so the outcome type below records what the source can
actually do. -/

inductive StartOutcome where
  | ok
  | alreadyRunning
deriving DecidableEq

structure OrchState where
  isDetecting : Bool
  isModelLoading : Bool
  modelsLoaded : Bool
  errorSet : Bool
  videoRef : Option ℕ
  animationFrame : Option ℕ
  nextFrameId : ℕ
  cancelledFrames : List ℕ
deriving DecidableEq

def initOrch : OrchState := ⟨false, false, false, false, none, none, 0, []⟩

/-- startDetection: cancel any pending frame (lines 353..356), set the
video reference and flags (358..360), await the model load attempt when
no load is done or in flight (363..366, loadResult gives its outcome),
then begin the loop, modelled as scheduling its first frame callback
(371..373). The source never returns alreadyRunning. -/
def startDetection (loadResult : Bool) (v : ℕ) (s : OrchState) : StartOutcome × OrchState :=
  let s1 :=
    match s.animationFrame with
    | some id => { s with animationFrame := none, cancelledFrames := id :: s.cancelledFrames }
    | none => s
  let s2 := { s1 with videoRef := some v, isDetecting := true, errorSet := false }
  let s3 :=
    if ¬s2.modelsLoaded ∧ ¬s2.isModelLoading then
      { s2 with modelsLoaded := loadResult, errorSet := ¬loadResult }
    else s2
  (StartOutcome.ok,
   { s3 with animationFrame := some s3.nextFrameId, nextFrameId := s3.nextFrameId + 1 })

/-! ### Event trace of one startDetection call (source lines 348..373)

The temporal claim about start is about the order of its effects, so
the call is also modelled as the list of events it performs: loadSettle
is the completion (success or failure) of the awaited loadModels
attempt, loopStart the first detectFaces invocation. -/

inductive StartEvent where
  | cancelPending
  | setVideo
  | setDetectingTrue
  | clearError
  | loadStart
  | loadSettle
  | loopStart
deriving DecidableEq

/-- The events of one startDetection call, in source order, as a
function of whether a frame was pending and of the modelsLoaded /
isModelLoading flags at the call. The load attempt is started and
awaited to completion (the await on line 365) before the loop starts,
and only when neither flag is set (line 363). -/
def startTrace (hasPendingFrame modelsLoaded isModelLoading : Bool) : List StartEvent :=
  (if hasPendingFrame then [StartEvent.cancelPending] else []) ++
  [StartEvent.setVideo, StartEvent.setDetectingTrue, StartEvent.clearError] ++
  (if ¬modelsLoaded ∧ ¬isModelLoading then [StartEvent.loadStart, StartEvent.loadSettle] else []) ++
  [StartEvent.loopStart]

/-! ### Interleaving model of the loop against stopDetection

detectFaces is async: its body runs to an await, suspends, and later
resumes to do the throttled publish (lines 110..115 or 152..157) and to
reschedule itself whenever the video reference is still set (lines
129..132). stopDetection (lines 381..387) cancels the pending scheduled
callback, clears the flag and the list, but does not clear the video
reference and does not signal the suspended invocation. The published
faces payload is abstracted to a list of naturals. -/

structure LoopState where
  videoRef : Option ℕ
  pendingFrame : Option ℕ
  isDetecting : Bool
  detectedFaces : List ℕ
  lastUpdateTime : ℕ
  inFlight : Bool
  publishLog : List ℕ
  nextFrameId : ℕ
deriving DecidableEq

inductive LoopAct where
  | fire
  | finish (faces : List ℕ) (now : ℕ)
  | stopCall
deriving DecidableEq

/-- One transition of the interleaving model. fire: a scheduled
callback begins and suspends at its await. finish: a suspended
invocation resumes, performs the throttled publish, and reschedules if
the video reference is set. stopCall: stopDetection runs to
completion. -/
def loopStep (s : LoopState) : LoopAct → LoopState
  | LoopAct.fire =>
    match s.pendingFrame with
    | some _ => { s with pendingFrame := none, inFlight := true }
    | none => s
  | LoopAct.finish faces now =>
    if s.inFlight then
      let s1 :=
        if 100 < now - s.lastUpdateTime then
          { s with detectedFaces := faces, lastUpdateTime := now,
                   publishLog := s.publishLog ++ [now] }
        else s
      let s2 :=
        if s1.videoRef.isSome then
          { s1 with pendingFrame := some s1.nextFrameId, nextFrameId := s1.nextFrameId + 1 }
        else s1
      { s2 with inFlight := false }
    else s
  | LoopAct.stopCall =>
    { s with pendingFrame := none, isDetecting := false, detectedFaces := [] }

/-- A session that has started: the loop scheduled callback 0, which
has fired and is suspended at its await. -/
def runningSession : LoopState :=
  ⟨some 1, none, true, [], 0, true, [], 1⟩

/-! ### Concrete frames -/

/-- A 121 x 121 frame whose rows repeat with period 4: rows 0 mod 4 are
a skin tone (180, 120, 80), all other rows are flat gray (130, 130,
130). Index arithmetic: byte i belongs to row (i / 4) / 121 and channel
i % 4. -/
def skinFrame : ℕ → ℕ := fun i =>
  if (i / 4 / 121) % 4 == 0 then
    (match i % 4 with
     | 0 => 180
     | 1 => 120
     | 2 => 80
     | _ => 255)
  else 130

/-- A frame that is uniform mid-gray: every channel of every pixel
reads 130. -/
def grayFrame : ℕ → ℕ := fun _ => 130

/-- A tiny frame distinguishing the diagonal-previous pixel (x-1, y-1)
from the diagonal-previous sampled pixel (x-2, y-2): the R byte of
pixel (0, 0) is 0, every other byte is 100. -/
def diagFrame : ℕ → ℕ := fun i => if i = 0 then 0 else 100

/-- The detection the scan finds on skinFrame: the window at scale 1.0,
position (0, 0), size 120, padded and clamped to the 121 x 121
frame. -/
def skinDetection : FaceDetection :=
  ⟨0, 0, 121, 121, 7711/12000, "neutral", 4/5⟩

/-- The region score of the 120-window of skinFrame at (0, 0). -/
def skinScore : RegionScore :=
  ⟨true, 7711/12000, "neutral", 4/5⟩

/-! ### The claimed edge rule (for comparison with the code)

The claim reads the edge comparison as being against the
diagonally-previous sampled pixel, which at stride 2 is (x-2, y-2). -/

/-- The edge count as the claim states it: for in-frame interior
sampled pixels, compare R at (x, y) with R at (x-2, y-2). -/
def edgePixelsClaimed (data : ℕ → ℕ) (startX startY size width height : ℕ) : ℕ :=
  (sampledOffsets size).countP (fun p =>
    decide (startX + p.2 < width) && decide (startY + p.1 < height) &&
    decide (0 < p.2) && decide (0 < p.1) &&
    decide (30 < ((data (((startY + p.1) * width + (startX + p.2)) * 4) : ℤ) -
      (data (((startY + p.1 - 2) * width + (startX + p.2 - 2)) * 4))).natAbs))

theorem natAdd_zero_left (n : NatStats) : natAdd natZero n = n := by
  simp [natAdd, natZero]

theorem natAdd_zero_right (n : NatStats) : natAdd n natZero = n := by
  simp [natAdd, natZero]

theorem natAdd_assoc (a b c : NatStats) : natAdd (natAdd a b) c = natAdd a (natAdd b c) := by
  simp [natAdd, Nat.add_assoc]

theorem stepStats_ofNat (data : ℕ → ℕ) (sx sy w h : ℕ) (n : NatStats) (p : ℕ × ℕ) :
    stepStats data sx sy w h (ofNat n) p = ofNat (natAdd n (natContrib data sx sy w h p)) := by
  unfold stepStats natContrib
  by_cases hb : w ≤ sx + p.2 ∨ h ≤ sy + p.1
  · simp only [if_pos hb, natAdd_zero_right]
  · simp only [if_neg hb]
    simp only [ofNat, natAdd, RegionStats.mk.injEq, and_true, true_and]
    push_cast
    ring

theorem natContrib_edge (data : ℕ → ℕ) (sx sy w h : ℕ) (p : ℕ × ℕ) :
    (natContrib data sx sy w h p).edge = if edgeFlag data sx sy w h p then 1 else 0 := by
  unfold natContrib edgeFlag
  by_cases hb : w ≤ sx + p.2 ∨ h ≤ sy + p.1
  · simp only [if_pos hb, natZero]
    have hfalse : (decide (sx + p.2 < w) && decide (sy + p.1 < h)) = false := by
      rcases hb with hb | hb <;> simp [Nat.not_lt.mpr hb]
    simp [hfalse]
  · simp only [if_neg hb]
    push_neg at hb
    simp only [decide_eq_true (hb.1), decide_eq_true (hb.2), Bool.true_and]
    by_cases h2 : 0 < p.2 <;> by_cases h3 : 0 < p.1 <;>
      simp [h2, h3, Bool.and_eq_true, decide_eq_true_iff]

theorem foldl_stepStats (data : ℕ → ℕ) (sx sy w h : ℕ) :
    ∀ (L : List (ℕ × ℕ)) (n : NatStats),
      L.foldl (stepStats data sx sy w h) (ofNat n) =
        ofNat (natAdd n (sumNat (L.map (natContrib data sx sy w h)))) := by
  intro L
  induction L with
  | nil => intro n; simp [sumNat, natAdd_zero_right]
  | cons a l ih =>
    intro n
    simp only [List.foldl_cons, List.map_cons]
    rw [stepStats_ofNat, ih]
    have : sumNat (natContrib data sx sy w h a :: l.map (natContrib data sx sy w h)) =
        natAdd (natContrib data sx sy w h a) (sumNat (l.map (natContrib data sx sy w h))) := rfl
    rw [this, natAdd_assoc]

theorem ofNat_natZero : ofNat natZero = initStats := by
  simp [ofNat, natZero, initStats]

theorem regionStats_eq_sum (data : ℕ → ℕ) (sx sy size w h : ℕ) :
    regionStats data sx sy size w h =
      ofNat (sumNat ((sampledOffsets size).map (natContrib data sx sy w h))) := by
  unfold regionStats
  rw [← ofNat_natZero, foldl_stepStats, natAdd_zero_left]

theorem sumNat_append (l1 l2 : List NatStats) :
    sumNat (l1 ++ l2) = natAdd (sumNat l1) (sumNat l2) := by
  induction l1 with
  | nil => simp [sumNat, natAdd_zero_left]
  | cons a l ih =>
    simp only [List.cons_append]
    show natAdd a (sumNat (l ++ l2)) = natAdd (natAdd a (sumNat l)) (sumNat l2)
    rw [ih, natAdd_assoc]

theorem sumNat_flatMap {α : Type} (f : α → List NatStats) (l : List α) :
    sumNat (l.flatMap f) = sumNat (l.map (fun a => sumNat (f a))) := by
  induction l with
  | nil => rfl
  | cons a l ih =>
    simp only [List.flatMap_cons, List.map_cons, sumNat_append]
    show natAdd (sumNat (f a)) (sumNat (l.flatMap f)) = _
    rw [ih]
    rfl

theorem regionStats_eq_rows (data : ℕ → ℕ) (sx sy size w h : ℕ) :
    regionStats data sx sy size w h = ofNat (natRows data sx sy size w h) := by
  rw [regionStats_eq_sum]
  unfold natRows sampledOffsets
  rw [List.map_flatMap, sumNat_flatMap]
  simp only [List.map_map, Function.comp_def]

theorem edge_sum (data : ℕ → ℕ) (sx sy w h : ℕ) :
    ∀ L : List (ℕ × ℕ),
      (sumNat (L.map (natContrib data sx sy w h))).edge = L.countP (edgeFlag data sx sy w h) := by
  intro L
  induction L with
  | nil => rfl
  | cons a l ih =>
    show (natAdd (natContrib data sx sy w h a) (sumNat (l.map (natContrib data sx sy w h)))).edge = _
    simp only [natAdd, natContrib_edge, ih, List.countP_cons]
    rcases hf : edgeFlag data sx sy w h a <;> simp [hf] <;> omega

theorem regionStats_brightness_nonneg (data : ℕ → ℕ) (sx sy size w h : ℕ) :
    0 ≤ (regionStats data sx sy size w h).brightnessSum := by
  rw [regionStats_eq_sum]
  show (0 : ℚ) ≤ (_ : ℕ) / 3
  positivity

/-- The confidence of the analyzer never exceeds 0.95: the degenerate
branch returns 0 and the main branch is capped by Math.min. -/
theorem analyze_confidence_le (data : ℕ → ℕ) (sx sy size w h : ℕ) :
    (analyzeRegionAdvanced data sx sy size w h).confidence ≤ 19/20 := by
  unfold analyzeRegionAdvanced scoreOfStats
  by_cases h0 : (regionStats data sx sy size w h).totalPixels = 0
  · simp only [if_pos h0]
    norm_num
  · simp only [if_neg h0]
    exact min_le_left _ _

/-- Bounds of the emotion estimate: between 0 and 0.9 whenever the
brightness and edge-ratio inputs are nonnegative. -/
theorem estimate_conf_bounds (r g b brightness edgeRatio : ℚ)
    (hb : 0 ≤ brightness) (he : 0 ≤ edgeRatio) :
    0 ≤ (estimateAdvancedEmotion r g b brightness edgeRatio).2 ∧
      (estimateAdvancedEmotion r g b brightness edgeRatio).2 ≤ 9/10 := by
  unfold estimateAdvancedEmotion
  by_cases h1 : 130 < brightness ∧ 1/10 < (r - b) / 255
  · rw [if_pos h1]
    dsimp only
    have hm1 : min (1/5 : ℚ) ((r - b) / 255) ≤ 1/5 := min_le_left _ _
    have hm0 : (0 : ℚ) ≤ min (1/5) ((r - b) / 255) :=
      le_min (by norm_num) (le_of_lt (lt_trans (by norm_num) h1.2))
    constructor <;> linarith
  · rw [if_neg h1]
    by_cases h2 : brightness < 90 ∧ 3/20 < edgeRatio
    · rw [if_pos h2]
      dsimp only
      have hm1 : min (3/10 : ℚ) edgeRatio ≤ 3/10 := min_le_left _ _
      have hm0 : (0 : ℚ) ≤ min (3/10) edgeRatio := le_min (by norm_num) he
      constructor <;> linarith
    · rw [if_neg h2]
      by_cases h3 : 3/10 < (max r (max g b) - min r (min g b)) / 255 ∧ 100 < brightness
      · rw [if_pos h3]
        dsimp only
        have hm1 : min (1/5 : ℚ) ((max r (max g b) - min r (min g b)) / 255) ≤ 1/5 :=
          min_le_left _ _
        have hm0 : (0 : ℚ) ≤ min (1/5) ((max r (max g b) - min r (min g b)) / 255) :=
          le_min (by norm_num) (le_of_lt (lt_trans (by norm_num) h3.1))
        constructor <;> linarith
      · rw [if_neg h3]
        dsimp only
        have hm1 : min (3/10 : ℚ) (brightness / 200) ≤ 3/10 := min_le_left _ _
        have hm0 : (0 : ℚ) ≤ min (3/10) (brightness / 200) :=
          le_min (by norm_num) (by positivity)
        constructor <;> linarith

theorem scanStep_of_full (data : ℕ → ℕ) (width height : ℕ)
    (faces : List FaceDetection) (w : ℕ × ℕ × ℕ) (hf : 1 ≤ faces.length) :
    scanStep data width height faces w = faces := by
  unfold scanStep
  simp [Nat.not_lt.mpr hf]

theorem foldl_scanStep_of_full (data : ℕ → ℕ) (width height : ℕ) :
    ∀ (L : List (ℕ × ℕ × ℕ)) (faces : List FaceDetection), 1 ≤ faces.length →
      L.foldl (scanStep data width height) faces = faces := by
  intro L
  induction L with
  | nil => intro faces _; rfl
  | cons a l ih =>
    intro faces hf
    simp only [List.foldl_cons, scanStep_of_full data width height faces a hf]
    exact ih faces hf

/-- The scan characterized: with maxFaces = 1 the result is the first
window in scan order passing the acceptance gate, or nothing. -/
theorem perform_eq_find (data : ℕ → ℕ) (width height : ℕ) :
    performImprovedFaceDetection data width height =
      (match (scanWindows width height).find? (acceptedWindow data width height) with
       | some win => [mkDetection data width height win]
       | none => []) := by
  unfold performImprovedFaceDetection
  generalize scanWindows width height = L
  induction L with
  | nil => rfl
  | cons a l ih =>
    rcases ha : acceptedWindow data width height a with _ | _
    · have hneg : ¬(acceptedWindow data width height a = true) := by simp [ha]
      have hstep : scanStep data width height [] a = [] := by
        unfold scanStep
        simp [ha]
      simp only [List.foldl_cons]
      rw [hstep, List.find?_cons_of_neg l hneg]
      exact ih
    · have hstep : scanStep data width height [] a = [mkDetection data width height a] := by
        unfold scanStep overlapsPrev
        simp [ha]
      simp only [List.foldl_cons]
      rw [hstep, List.find?_cons_of_pos l ha]
      exact foldl_scanStep_of_full data width height l _ (by simp)

/-! ### Evaluation of the concrete frames -/

theorem natRows_skin :
    natRows skinFrame 0 0 120 121 121 = ⟨1800, 3600, 558000, 450000, 378000, 1386000, 1711⟩ := by
  decide!

theorem natRows_gray :
    natRows grayFrame 0 0 120 121 121 = ⟨0, 3600, 468000, 468000, 468000, 1404000, 0⟩ := by
  decide!

theorem stats_skin :
    regionStats skinFrame 0 0 120 121 121 =
      ⟨1800, 3600, 558000, 450000, 378000, ((1386000 : ℕ) : ℚ) / 3, 1711⟩ := by
  rw [regionStats_eq_rows, natRows_skin]
  rfl

theorem stats_gray :
    regionStats grayFrame 0 0 120 121 121 =
      ⟨0, 3600, 468000, 468000, 468000, ((1404000 : ℕ) : ℚ) / 3, 0⟩ := by
  rw [regionStats_eq_rows, natRows_gray]
  rfl

theorem score_skin : analyzeRegionAdvanced skinFrame 0 0 120 121 121 = skinScore := by
  unfold analyzeRegionAdvanced
  rw [stats_skin]
  decide!

theorem score_gray :
    analyzeRegionAdvanced grayFrame 0 0 120 121 121 = ⟨false, 3/10, "neutral", 4/5⟩ := by
  unfold analyzeRegionAdvanced
  rw [stats_gray]
  decide!

theorem scanWindows_121 : scanWindows 121 121 = [(120, 0, 0), (96, 0, 0)] := by
  decide!

theorem perform_skin : performImprovedFaceDetection skinFrame 121 121 = [skinDetection] := by
  rw [perform_eq_find, scanWindows_121]
  have hacc : acceptedWindow skinFrame 121 121 (120, 0, 0) = true := by
    unfold acceptedWindow
    dsimp only
    rw [score_skin]
    decide!
  rw [List.find?_cons_of_pos _ hacc]
  show [mkDetection skinFrame 121 121 (120, 0, 0)] = [skinDetection]
  have hmk : mkDetection skinFrame 121 121 (120, 0, 0) = skinDetection := by
    unfold mkDetection
    dsimp only
    rw [score_skin]
    decide!
  rw [hmk]

/-! ### The claims -/

/-- C1, counterexample: a second startDetection without an intervening
stop does not fail with a precondition violation: it returns ok, it
changes the state, and it cancels the first session's pending frame
callback (frame id 0). -/
theorem c1_counterexample :
    (startDetection true 2 (startDetection true 1 initOrch).2).1 = StartOutcome.ok ∧
    (startDetection true 2 (startDetection true 1 initOrch).2).2 ≠
      (startDetection true 1 initOrch).2 ∧
    (startDetection true 1 initOrch).2.animationFrame = some 0 ∧
    (startDetection true 2 (startDetection true 1 initOrch).2).2.cancelledFrames = [0] := by
  decide

/-- C1, amended: a second startDetection without an intervening stop
never fails: it returns ok, replaces the video reference, cancels the
pending frame of the running session (superseding its loop), and
schedules a fresh loop. -/
theorem c1_second_start_restarts (loadResult : Bool) (v : ℕ) (s : OrchState) :
    (startDetection loadResult v s).1 = StartOutcome.ok ∧
    (startDetection loadResult v s).2.videoRef = some v ∧
    (startDetection loadResult v s).2.isDetecting = true ∧
    (startDetection loadResult v s).2.animationFrame = some s.nextFrameId ∧
    (startDetection loadResult v s).2.cancelledFrames =
      (match s.animationFrame with
       | some id => id :: s.cancelledFrames
       | none => s.cancelledFrames) := by
  obtain ⟨isD, isML, mL, err, vr, af, nf, cf⟩ := s
  unfold startDetection
  rcases af with _ | id <;> rcases mL with _ | _ <;> rcases isML with _ | _ <;> simp

/-- C2, counterexample: in the session where models are not loaded and
no load is in flight, the model-load attempt settles strictly before
the detection loop starts: start awaits the load instead of
fire-and-forget. -/
theorem c2_counterexample :
    startTrace false false false =
      [StartEvent.setVideo, StartEvent.setDetectingTrue, StartEvent.clearError,
       StartEvent.loadStart, StartEvent.loadSettle, StartEvent.loopStart] ∧
    List.findIdx (fun e => e == StartEvent.loadSettle) (startTrace false false false) <
      List.findIdx (fun e => e == StartEvent.loopStart) (startTrace false false false) := by
  decide

/-- C2, amended: when models are neither loaded nor loading, start
performs and awaits the load attempt before starting the loop; when a
load is already in flight or the models are loaded, no load settles
inside start and the loop starts directly. -/
theorem c2_start_awaits_load (hp : Bool) :
    startTrace hp false false =
      (if hp then [StartEvent.cancelPending] else []) ++
        [StartEvent.setVideo, StartEvent.setDetectingTrue, StartEvent.clearError,
         StartEvent.loadStart, StartEvent.loadSettle, StartEvent.loopStart] ∧
    StartEvent.loadSettle ∉ startTrace hp true false ∧
    StartEvent.loadSettle ∉ startTrace hp false true ∧
    StartEvent.loadSettle ∉ startTrace hp true true ∧
    StartEvent.loopStart ∈ startTrace hp true false := by
  cases hp <;> decide

/-- C3, counterexample: with lastPublish starting at 0, the attempts at
t = 0, 30, 60, 90, 130 publish exactly at t = 130; the attempt at t = 0
is dropped because 0 - 0 is not greater than 100. -/
theorem c3_counterexample :
    visiblePublishes [0, 30, 60, 90, 130] = [130] ∧
    0 ∉ visiblePublishes [0, 30, 60, 90, 130] ∧
    visiblePublishes [0, 30, 60, 90, 130] ≠ [0, 130] := by
  decide

/-- C3, amended: a frame publishes exactly when now minus lastPublish
exceeds 100 ms, and on the schedule 0, 30, 60, 90, 130 with lastPublish
starting at 0 only the attempt at t = 130 becomes visible. -/
theorem c3_throttle (lastUpdate now : ℕ) :
    (shouldPublish lastUpdate now = true ↔ 100 < now - lastUpdate) ∧
    visiblePublishes [0, 30, 60, 90, 130] = [130] := by
  constructor
  · simp [shouldPublish]
  · decide

/-- C4, counterexample: on diagFrame the edge count of the code is 0
(it compares against the pixel at (x-1, y-1)) while the count under the
claimed rule (against the previous sampled pixel at (x-2, y-2)) is
1. -/
theorem c4_counterexample :
    (regionStats diagFrame 0 0 4 10 10).edgePixels = 0 ∧
    edgePixelsClaimed diagFrame 0 0 4 10 10 = 1 ∧
    (regionStats diagFrame 0 0 4 10 10).edgePixels ≠
      edgePixelsClaimed diagFrame 0 0 4 10 10 := by
  decide

/-- C4, amended: the edge count increments exactly for the in-frame
interior sampled pixels whose R value differs by more than 30 from the
R value of the immediately diagonal previous pixel (x-1, y-1) - not
from the diagonally previous sampled pixel (x-2, y-2). -/
theorem c4_edge_against_prev_pixel (data : ℕ → ℕ) (sx sy size w h : ℕ) :
    (regionStats data sx sy size w h).edgePixels =
      (sampledOffsets size).countP (edgeFlag data sx sy w h) := by
  rw [regionStats_eq_sum]
  exact edge_sum data sx sy w h (sampledOffsets size)

/-- C5, counterexample: on the uniform mid-gray frame the emotion
confidence is 4/5 = 0.8, not the claimed 0.695 = 139/200; the gap is
0.105. -/
theorem c5_counterexample :
    (analyzeRegionAdvanced grayFrame 0 0 120 121 121).emotionConfidence = 4/5 ∧
    (analyzeRegionAdvanced grayFrame 0 0 120 121 121).emotionConfidence ≠ 139/200 ∧
    (4/5 : ℚ) - 139/200 = 21/200 := by
  rw [score_gray]
  refine ⟨rfl, ?_, by norm_num⟩
  norm_num

/-- C5, amended: on a uniform mid-gray frame (every channel 130) the
analyzer reports no candidate, zero skin pixels, mean brightness 130,
and the neutral emotion with confidence 0.5 + min(0.3, 130/200) = 0.8
(so 0.8, not the 0.695 the claim computed from the same formula). -/
theorem c5_gray_frame :
    analyzeRegionAdvanced grayFrame 0 0 120 121 121 = ⟨false, 3/10, "neutral", 4/5⟩ ∧
    (regionStats grayFrame 0 0 120 121 121).skinPixels = 0 ∧
    (regionStats grayFrame 0 0 120 121 121).brightnessSum /
      ((regionStats grayFrame 0 0 120 121 121).totalPixels : ℚ) = 130 ∧
    (4/5 : ℚ) = 1/2 + min (3/10) (130/200) := by
  refine ⟨score_gray, ?_, ?_, by rw [min_eq_left (by norm_num)]; norm_num⟩
  · rw [stats_gray]
  · rw [stats_gray]
    norm_num

/-- C6: the fallback scan never returns two detections (maxFaces = 1),
and the list it returns is exactly the first window in scan order
(scales 1.0, 0.8, 1.2, then row-major) that passes the acceptance gate;
in particular, of two nearby accepted candidate windows, at most the
earlier one in scan order is returned. -/
theorem c6_scan_first_only (data : ℕ → ℕ) (width height : ℕ) :
    (performImprovedFaceDetection data width height).length ≤ 1 ∧
    performImprovedFaceDetection data width height =
      (match (scanWindows width height).find? (acceptedWindow data width height) with
       | some win => [mkDetection data width height win]
       | none => []) := by
  refine ⟨?_, perform_eq_find data width height⟩
  rw [perform_eq_find]
  rcases (scanWindows width height).find? (acceptedWindow data width height) with _ | win <;>
    simp

/-- C7: for a window with at least one sampled pixel, isFaceCandidate
holds exactly when the skin ratio lies strictly between 0.3 and 0.8,
the mean brightness strictly between 60 and 200, the edge ratio
exceeds 0.1 and the raw skin count exceeds 80; and the confidence is
at most 0.95. -/
theorem c7_candidate_iff (data : ℕ → ℕ) (sx sy size w h : ℕ)
    (h0 : 0 < (regionStats data sx sy size w h).totalPixels) :
    ((analyzeRegionAdvanced data sx sy size w h).isFaceCandidate = true ↔
      (3/10 < ((regionStats data sx sy size w h).skinPixels : ℚ) /
          ((regionStats data sx sy size w h).totalPixels : ℚ) ∧
       ((regionStats data sx sy size w h).skinPixels : ℚ) /
          ((regionStats data sx sy size w h).totalPixels : ℚ) < 4/5 ∧
       60 < (regionStats data sx sy size w h).brightnessSum /
          ((regionStats data sx sy size w h).totalPixels : ℚ) ∧
       (regionStats data sx sy size w h).brightnessSum /
          ((regionStats data sx sy size w h).totalPixels : ℚ) < 200 ∧
       1/10 < ((regionStats data sx sy size w h).edgePixels : ℚ) /
          ((regionStats data sx sy size w h).totalPixels : ℚ) ∧
       80 < (regionStats data sx sy size w h).skinPixels)) ∧
    (analyzeRegionAdvanced data sx sy size w h).confidence ≤ 19/20 := by
  refine ⟨?_, analyze_confidence_le data sx sy size w h⟩
  unfold analyzeRegionAdvanced scoreOfStats
  rw [if_neg (Nat.pos_iff_ne_zero.mp h0)]
  dsimp only
  exact decide_eq_true_iff

/-- C7 witness: the single-sample window of the gray frame has a
sampled pixel; it is not a candidate and indeed no branch of the
criterion holds (the skin ratio is 0). -/
theorem c7_witness :
    ((analyzeRegionAdvanced grayFrame 0 0 2 10 10).isFaceCandidate = true ↔
      (3/10 < ((regionStats grayFrame 0 0 2 10 10).skinPixels : ℚ) /
          ((regionStats grayFrame 0 0 2 10 10).totalPixels : ℚ) ∧
       ((regionStats grayFrame 0 0 2 10 10).skinPixels : ℚ) /
          ((regionStats grayFrame 0 0 2 10 10).totalPixels : ℚ) < 4/5 ∧
       60 < (regionStats grayFrame 0 0 2 10 10).brightnessSum /
          ((regionStats grayFrame 0 0 2 10 10).totalPixels : ℚ) ∧
       (regionStats grayFrame 0 0 2 10 10).brightnessSum /
          ((regionStats grayFrame 0 0 2 10 10).totalPixels : ℚ) < 200 ∧
       1/10 < ((regionStats grayFrame 0 0 2 10 10).edgePixels : ℚ) /
          ((regionStats grayFrame 0 0 2 10 10).totalPixels : ℚ) ∧
       80 < (regionStats grayFrame 0 0 2 10 10).skinPixels)) ∧
    (analyzeRegionAdvanced grayFrame 0 0 2 10 10).confidence ≤ 19/20 :=
  c7_candidate_iff grayFrame 0 0 2 10 10 (by decide)

/-- C8: the code violates the claim. On a running session whose frame
handler is suspended at its await, stopDetection completes (clearing
the list, publish log still empty), and the suspended handler then
still publishes its faces (the log gains the publish at t = 200, the
visible list becomes its payload) and even reschedules the loop,
because stopDetection leaves the video reference set. -/
theorem c8_publish_after_stop :
    (loopStep runningSession LoopAct.stopCall).detectedFaces = [] ∧
    (loopStep runningSession LoopAct.stopCall).publishLog = [] ∧
    (loopStep (loopStep runningSession LoopAct.stopCall)
      (LoopAct.finish [7] 200)).publishLog = [200] ∧
    (loopStep (loopStep runningSession LoopAct.stopCall)
      (LoopAct.finish [7] 200)).detectedFaces = [7] ∧
    (loopStep (loopStep runningSession LoopAct.stopCall)
      (LoopAct.finish [7] 200)).pendingFrame = some 1 := by
  decide

/-- C9: every detection the fallback scan returns has confidence
strictly above 0.6 (the acceptance gate) and at most 0.95 (the
analyzer cap). -/
theorem c9_confidence_range (data : ℕ → ℕ) (width height : ℕ) (d : FaceDetection)
    (hd : d ∈ performImprovedFaceDetection data width height) :
    3/5 < d.confidence ∧ d.confidence ≤ 19/20 := by
  rw [perform_eq_find] at hd
  rcases hfind : (scanWindows width height).find? (acceptedWindow data width height) with _ | win
  · rw [hfind] at hd
    simp at hd
  · rw [hfind] at hd
    simp only [List.mem_singleton] at hd
    subst hd
    have hacc := List.find?_some hfind
    unfold acceptedWindow at hacc
    rw [Bool.and_eq_true, decide_eq_true_iff] at hacc
    have hconf : (mkDetection data width height win).confidence =
        (analyzeRegionAdvanced data win.2.2 win.2.1 win.1 width height).confidence := rfl
    rw [hconf]
    exact ⟨hacc.2, analyze_confidence_le data win.2.2 win.2.1 win.1 width height⟩

/-- C9 witness: on the striped skin frame the scan returns one
detection, whose confidence 7711/12000 lies in (0.6, 0.95]. -/
theorem c9_witness :
    3/5 < skinDetection.confidence ∧ skinDetection.confidence ≤ 19/20 :=
  c9_confidence_range skinFrame 121 121 skinDetection
    (by rw [perform_skin]; exact List.mem_singleton_self _)

/-- C10: the emotion confidence of the analyzer always lies in
[0, 0.9]: the degenerate window gives 0, and each emotion branch is
bounded by 0.9 (happy and focused) or 0.8 (surprised and neutral). -/
theorem c10_emotion_confidence_range (data : ℕ → ℕ) (sx sy size w h : ℕ) :
    0 ≤ (analyzeRegionAdvanced data sx sy size w h).emotionConfidence ∧
    (analyzeRegionAdvanced data sx sy size w h).emotionConfidence ≤ 9/10 := by
  unfold analyzeRegionAdvanced scoreOfStats
  by_cases h0 : (regionStats data sx sy size w h).totalPixels = 0
  · rw [if_pos h0]
    norm_num
  · rw [if_neg h0]
    dsimp only
    exact estimate_conf_bounds _ _ _ _ _
      (div_nonneg (regionStats_brightness_nonneg data sx sy size w h) (Nat.cast_nonneg _))
      (div_nonneg (Nat.cast_nonneg _) (Nat.cast_nonneg _))

end Photobooth
